import Mathlib

/-!
Verification development for the advanced-telegram-bot dispatch and storage
core.  Python source files are shallowly embedded: documents are association
lists with Python-dict semantics (first binding wins, in-place overwrite),
fallible operations return `Except`, and the local JSON backend is a map from
collection names to file contents.
-/

/-- JSON-compatible scalar/structured values stored in documents
(strings, integers, and lists of strings such as role lists). -/
inductive Val where
  | str (s : String)
  | int (n : Int)
  | strlist (ss : List String)
deriving DecidableEq, Repr

/-- A document: a Python dict embedded as an association list
(string keys, insertion-ordered, keys unique by construction of the ops). -/
abbrev Doc := List (String × Val)

/-- Embeds `d[k]` lookup on a dict: the first binding of key `k`, if any. -/
def docFind (d : Doc) (k : String) : Option Val :=
  match d with
  | [] => none
  | (k2, v) :: rest => if k2 = k then some v else docFind rest k

/-- Embeds `d[k] = v` on a dict: overwrite the binding in place if the key is
present, else append the new binding at the end (Python insertion order). -/
def docSet (d : Doc) (k : String) (v : Val) : Doc :=
  match d with
  | [] => [(k, v)]
  | (k2, v2) :: rest => if k2 = k then (k2, v) :: rest else (k2, v2) :: docSet rest k v

/-- Python `f.items() <= d.items()`: every key/value pair of the filter `f`
appears in the document `d` (sub-map / superset match). -/
def submatch (f d : Doc) : Bool :=
  f.all (fun kv => docFind d kv.1 == some kv.2)

/-- Embeds `for key in patch: d[key] = patch[key]` — shallow merge of the patch
into the document, in patch order. -/
def applyPatch (d : Doc) (patch : Doc) : Doc :=
  patch.foldl (fun acc kv => docSet acc kv.1 kv.2) d

namespace DataFiltering

/-- Embeds `DataFiltering.dict_list_slice`: projects every dict of the list down to
exactly the given columns; a missing column raises (KeyError), modelled as
`none`.  With an empty column list the input is returned unchanged. -/
def dict_list_slice (dicts : List Doc) (columns : List String) : Option (List Doc) :=
  if columns.isEmpty then some dicts
  else dicts.mapM (fun d => columns.mapM (fun c => (docFind d c).map (fun v => (c, v))))

end DataFiltering

/-- The `StorageException` raised by the storage backends. -/
inductive StorageException where
  | failed (msg : String)
deriving DecidableEq, Repr

/-- Content of one collection's backing file in the local JSON backend. -/
inductive FileContent where
  | missing
  | corrupt
  | data (docs : List Doc)
deriving DecidableEq, Repr

/-- State of a `LocalJSONStorage` instance: one backing file per collection. -/
abbrev LocalState := String → FileContent

/-- Embeds `__write_data_to_json`: rewrite one collection's whole backing file. -/
def writeData (st : LocalState) (collection : String) (docs : List Doc) : LocalState :=
  fun c => if c = collection then .data docs else st c

namespace LocalJSONStorage

/-- Embeds `LocalJSONStorage.get_data`: read the backing file (missing or
undecodable file raises `StorageException`), filter by superset match when
the filter dict is non-empty, project columns when requested (a missing
column raises, caught by the wrapping `except`), and truncate when
`count` is non-zero. -/
def get_data (st : LocalState) (collection : String) (columns : List String)
    (doc : Doc) (count : Nat) : Except StorageException (List Doc) :=
  match st collection with
  | .data data =>
      let data := if doc.isEmpty then data else data.filter (fun x => submatch doc x)
      match DataFiltering.dict_list_slice data columns with
      | some sliced => .ok (if count = 0 then sliced else sliced.take count)
      | none => .error (.failed "Failed to get data from storage")
  | _ => .error (.failed "Failed to get data from storage")

/-- Embeds `LocalJSONStorage.get_data_by_column`: sugar for `get_data` with the
one-column filter keyed by the given column and value. -/
def get_data_by_column (st : LocalState) (collection : String) (by_ : String)
    (value : Val) (columns : List String) (count : Nat) :
    Except StorageException (List Doc) :=
  get_data st collection columns [(by_, value)] count

/-- Embeds `LocalJSONStorage.insert_one_doc`: read the collection, with any read
failure swallowed into an empty list by the inner `except`, append the new
document and rewrite the file (the file write is modelled as always
succeeding, so the outer `except` never fires). -/
def insert_one_doc (st : LocalState) (collection : String) (doc : Doc) : LocalState :=
  let data := match get_data st collection [] [] 0 with
    | .ok d => d
    | .error _ => []
  writeData st collection (data ++ [doc])

/-- Embeds `LocalJSONStorage.insert_many_docs`: same as `insert_one_doc` but
appending a whole list of documents. -/
def insert_many_docs (st : LocalState) (collection : String) (docs : List Doc) : LocalState :=
  let data := match get_data st collection [] [] 0 with
    | .ok d => d
    | .error _ => []
  writeData st collection (data ++ docs)

/-- The removal loop of `remove_one_doc_by_dict`: scan in insertion order,
drop the first superset-matching document and stop. -/
def removeFirst (f : Doc) : List Doc → List Doc
  | [] => []
  | d :: rest => if submatch f d then rest else d :: removeFirst f rest

/-- Embeds `LocalJSONStorage.remove_one_doc_by_dict`: read the collection (failure
raises `StorageException`), remove the first superset match of the filter if
any, and rewrite the file. -/
def remove_one_doc_by_dict (st : LocalState) (collection : String) (doc : Doc) :
    Except StorageException LocalState :=
  match get_data st collection [] [] 0 with
  | .ok data => .ok (writeData st collection (removeFirst doc data))
  | .error _ => .error (.failed "Failed to remove a doc from collection!")

/-- The update loop of `update_one_doc`: patch the first document whose id
column holds the id value (mismatching or keyless documents are skipped) and
report whether one was found. -/
def updateFirst (idc : String) (idv : Val) (patch : Doc) : List Doc → List Doc × Bool
  | [] => ([], false)
  | d :: rest =>
      if docFind d idc == some idv then (applyPatch d patch :: rest, true)
      else
        let r := updateFirst idc idv patch rest
        (d :: r.1, r.2)

/-- The update loop of `update_many_docs`: patch every document whose id
column holds the id value, counting the matches. -/
def updateAll (idc : String) (idv : Val) (patch : Doc) : List Doc → List Doc × Nat
  | [] => ([], 0)
  | d :: rest =>
      let r := updateAll idc idv patch rest
      if docFind d idc == some idv then (applyPatch d patch :: r.1, r.2 + 1)
      else (d :: r.1, r.2)

/-- Embeds `LocalJSONStorage.update_one_doc`: read the collection (failure raises
`StorageException`), patch the first document matched by the id column, and
rewrite the file only when a match was found — no upsert. -/
def update_one_doc (st : LocalState) (collection : String) (idc : String)
    (idv : Val) (doc : Doc) : Except StorageException LocalState :=
  match get_data st collection [] [] 0 with
  | .ok data =>
      let r := updateFirst idc idv doc data
      .ok (if r.2 then writeData st collection r.1 else st)
  | .error _ => .error (.failed "Failed to update a doc from collection!")

/-- Embeds `LocalJSONStorage.update_many_docs`: like `update_one_doc` but patching
every match; the file is rewritten only when the match count is non-zero. -/
def update_many_docs (st : LocalState) (collection : String) (idc : String)
    (idv : Val) (doc : Doc) : Except StorageException LocalState :=
  match get_data st collection [] [] 0 with
  | .ok data =>
      let r := updateAll idc idv doc data
      .ok (if r.2 ≠ 0 then writeData st collection r.1 else st)
  | .error _ => .error (.failed "Failed to update a doc from collection!")

end LocalJSONStorage

/-- State of a `MongoDBStorage` instance: the documents of each collection
of the connected database, in natural order. -/
abbrev MongoState := String → List Doc

namespace MongoDBStorage

/-- Embeds `MongoDBStorage.get_data`: `collection.find(doc)` with the flat
equality filter modelled as superset match (MongoDB native filter
semantics for equality predicates), then `limit(count)` when `count` is
non-zero, then column projection. -/
def get_data (st : MongoState) (collection : String) (columns : List String)
    (doc : Doc) (count : Nat) : Except StorageException (List Doc) :=
  let db_data := (st collection).filter (fun x => submatch doc x)
  let db_data := if count = 0 then db_data else db_data.take count
  match DataFiltering.dict_list_slice db_data columns with
  | some sliced => .ok sliced
  | none => .error (.failed "Failed to get data from storage")

/-- Embeds `MongoDBStorage.update_one_doc`, the driver call
`collection.update_one` with the one-key id filter, a set-patch document and
`upsert=True` — the call is modelled by MongoDB's
documented semantics: `$set` the patch on the first document matching the
id filter, or, with no match, insert a fresh document built from the
equality filter merged with the `$set` fields (native upsert). -/
def update_one_doc (st : MongoState) (collection : String) (idc : String)
    (idv : Val) (doc : Doc) : MongoState :=
  let data := st collection
  let r := LocalJSONStorage.updateFirst idc idv doc data
  let newData := if r.2 then r.1 else data ++ [applyPatch [(idc, idv)] doc]
  fun c => if c = collection then newData else st c

end MongoDBStorage

/-- Builds the regular expression matching exactly one literal string, used
to express concrete route patterns such as the two branches of "hi|hello". -/
def reStr (s : String) : RegularExpression Char :=
  s.data.foldr (fun c r => RegularExpression.char c * r) 1

/-- A registered route: the `states`/`roles` allow-lists of `Route`, plus the
callback, abstracted to the one observable the dispatch loop depends on —
whether invoking it returns normally (`true`) or raises (`false`). -/
structure Route where
  callbackOk : Bool
  states : List String
  roles : List String

/-- Embeds `Route.is_accessible_with`: access-control predicate — a non-empty state
allow-list must contain the user state, and a non-empty role allow-list must
share a role with the user's roles. -/
def Route.is_accessible_with (r : Route) (state : String) (roles : List String) : Bool :=
  if !r.states.isEmpty && !r.states.contains state then false
  else if !r.roles.isEmpty then r.roles.any (fun role => roles.contains role)
  else true

/-- The `CommandRoute`: a route triggered by an exact command string. -/
structure CommandRoute extends Route where
  command : String

/-- The `MessageRoute`: a route triggered by a regex pattern over message text. -/
structure MessageRoute extends Route where
  message : RegularExpression Char

/-- Errors that can escape the lookups and parsing inside the dispatch
handlers: `StateError`, `RoleError`, a storage failure, or the IndexError
of `message.split()[0]` on a wordless message. -/
inductive DispatchErr where
  | stateError
  | roleError
  | storageException
  | indexError
deriving DecidableEq, Repr

/-- The Router's collaborators as seen from dispatch: `StateManager.get_state`
and `RoleAuth.get_user_roles`, each able to fail. -/
structure RouterEnv where
  get_state : Int → Except DispatchErr String
  get_user_roles : Int → Except DispatchErr (List String)

namespace Router

/-- Embeds `Router.__find_command_routes`: keeps registered command routes whose
command equals the token and which are accessible, in registration order. -/
def find_command_routes (routes : List CommandRoute) (command : String)
    (state : String) (roles : List String) : List CommandRoute :=
  routes.filter (fun r => command == r.command && r.toRoute.is_accessible_with state roles)

/-- Embeds `Router.__find_message_routes`: keeps registered message routes whose
pattern full-matches the whole message text (`re.fullmatch`) and which are
accessible, in registration order. -/
def find_message_routes (routes : List MessageRoute) (message : List Char)
    (state : String) (roles : List String) : List MessageRoute :=
  routes.filter (fun r => r.message.rmatch message && r.toRoute.is_accessible_with state roles)

/-- The `try/except (StateError, RoleError)` block of the serve handlers:
resolve the user's state then roles; either lookup failing with `StateError`
or `RoleError` yields the baseline `("free", ["user"])`; any other error
propagates. -/
def resolve_user (env : RouterEnv) (uid : Int) : Except DispatchErr (String × List String) :=
  match env.get_state uid with
  | .ok s =>
      match env.get_user_roles uid with
      | .ok r => .ok (s, r)
      | .error .stateError => .ok ("free", ["user"])
      | .error .roleError => .ok ("free", ["user"])
      | .error e => .error e
  | .error .stateError => .ok ("free", ["user"])
  | .error .roleError => .ok ("free", ["user"])
  | .error e => .error e

/-- The `for route in found_routes: route.callback(...)` loop: invokes each
callback in order; a callback that raises ends the loop and the exception
propagates.  Returns the routes whose callback was invoked, in order, and
whether an exception propagated out of the loop. -/
def invoke_loop {α : Type} (ok : α → Bool) : List α → List α × Bool
  | [] => ([], false)
  | r :: rest =>
      if ok r then
        let t := invoke_loop ok rest
        (r :: t.1, t.2)
      else ([r], true)

/-- Python `message.split()[0]`: the first whitespace-delimited word of the
text, or the IndexError case (`none`) when the text has no word. -/
def splitFirst (message : List Char) : Option (List Char) :=
  let rest := message.dropWhile Char.isWhitespace
  if rest.isEmpty then none else some (rest.takeWhile (fun c => !c.isWhitespace))

/-- Python `w.strip('/')`: drop every leading and every trailing `'/'`. -/
def stripSlashes (w : List Char) : List Char :=
  ((w.dropWhile (fun c => c == '/')).reverse.dropWhile (fun c => c == '/')).reverse

/-- The command token of `Router.__serve_command_route`:
`message.split()[0].strip('/')`; `none` models the IndexError on a
wordless message. -/
def commandToken (message : List Char) : Option String :=
  (splitFirst message).map (fun w => String.mk (stripSlashes w))

/-- Embeds `Router.__serve_command_route`: parse the command token, resolve the
user's state and roles with the baseline fallback, select the surviving
command routes, and run their callbacks.  Returns the invoked routes in
order and whether a callback's exception propagated. -/
def serve_command_route (env : RouterEnv) (routes : List CommandRoute) (uid : Int)
    (message : List Char) : Except DispatchErr (List CommandRoute × Bool) :=
  match commandToken message with
  | none => .error .indexError
  | some command =>
      match resolve_user env uid with
      | .ok (state, roles) =>
          .ok (invoke_loop (fun r => r.toRoute.callbackOk)
                (find_command_routes routes command state roles))
      | .error e => .error e

/-- Embeds `Router.__serve_message_route`: resolve the user's state and roles with
the baseline fallback, select the surviving message routes, and run their
callbacks.  Returns the invoked routes in order and whether a callback's
exception propagated. -/
def serve_message_route (env : RouterEnv) (routes : List MessageRoute) (uid : Int)
    (message : List Char) : Except DispatchErr (List MessageRoute × Bool) :=
  match resolve_user env uid with
  | .ok (state, roles) =>
      .ok (invoke_loop (fun r => r.toRoute.callbackOk)
            (find_message_routes routes message state roles))
  | .error e => .error e

/-- The command token as §4.4 of the spec words it: text up to the first
whitespace with a single leading `'/'` stripped (refinement foil for the
source's `strip('/')`). -/
def specCommandToken (message : List Char) : Option String :=
  (splitFirst message).map (fun w =>
    String.mk (match w with
      | '/' :: rest => rest
      | other => other))

end Router

/-- Errors raised by the role-management layer: `RoleError`,
`PasswordError`, `AlreadyLoggedError`, a propagated `StorageException`,
and the KeyError/TypeError cases of malformed user documents. -/
inductive AuthErr where
  | roleError
  | passwordError
  | alreadyLoggedError
  | storageException
  | keyError
  | typeError
deriving DecidableEq, Repr

/-- Column-name configuration of `RoleAuth` (constructor defaults of the
source: collection "Users", id column "_id", roles column "Roles"). -/
structure RoleAuthCfg where
  users_collection : String := "Users"
  id_column : String := "_id"
  roles_column : String := "Roles"

namespace RoleAuth

/-- Embeds `RoleAuth.get_user_roles`: fetch the user's document by the id column
(storage failure propagates), fail with `RoleError` when no document is
found, then return the roles column of the first hit (a missing column
raises KeyError, a non-list value later raises TypeError on membership). -/
def get_user_roles (cfg : RoleAuthCfg) (st : LocalState) (uid : Val) :
    Except AuthErr Val :=
  match LocalJSONStorage.get_data_by_column st cfg.users_collection cfg.id_column uid [] 0 with
  | .error _ => .error .storageException
  | .ok [] => .error .roleError
  | .ok (r0 :: _) =>
      match docFind r0 cfg.roles_column with
      | some v => .ok v
      | none => .error .keyError

/-- Embeds `RoleAuth.login_as` over the catalog `roles` (role name, role password)
and the shared storage: check the role exists (`RoleError`), check the
password (`PasswordError`), fetch the user's roles, and either append the
new role and persist it through `update_one_doc`, or fail with
`AlreadyLoggedError` when the user already holds it.  Returns the call's
outcome together with the storage state after the call. -/
def login_as (cfg : RoleAuthCfg) (roles : List (String × String)) (st : LocalState)
    (role : String) (uid : Val) (password : String) :
    Except AuthErr Unit × LocalState :=
  match roles.lookup role with
  | none => (.error .roleError, st)
  | some pw =>
      if pw ≠ password then (.error .passwordError, st)
      else
        match get_user_roles cfg st uid with
        | .error e => (.error e, st)
        | .ok (.strlist user_roles) =>
            if role ∈ user_roles then (.error .alreadyLoggedError, st)
            else
              match LocalJSONStorage.update_one_doc st cfg.users_collection cfg.id_column uid
                  [(cfg.roles_column, .strlist (user_roles ++ [role]))] with
              | .ok st2 => (.ok (), st2)
              | .error _ => (.error .storageException, st)
        | .ok _ => (.error .typeError, st)

end RoleAuth

/-! ## Sample data used by the concrete witnesses -/

/-- A message route matching the literal text "hi", open to every state and
role, with a callback that returns normally. -/
def sampleHiRoute : MessageRoute :=
  { callbackOk := true, states := [], roles := [], message := reStr "hi" }

/-- An environment whose lookups resolve every user to the baseline state and
roles. -/
def sampleEnv : RouterEnv :=
  { get_state := fun _ => .ok "free", get_user_roles := fun _ => .ok ["user"] }

/-- A one-user sample document. -/
def sampleDoc : Doc := [("_id", .int 1), ("Roles", .strlist ["user"]), ("State", .str "free")]

/-- A one-key filter matched by `sampleDoc` as a sub-map. -/
def sampleFilter : Doc := [("_id", .int 1)]

/-- A local storage state with a single Users collection. -/
def sampleLocal : LocalState :=
  fun c => if c = "Users" then .data [sampleDoc] else .missing

/-- A remote storage state with the same single Users collection. -/
def sampleMongo : MongoState :=
  fun c => if c = "Users" then [sampleDoc] else []

/-- An environment whose state lookup fails with the not-found `StateError`. -/
def missingUserEnv : RouterEnv :=
  { get_state := fun _ => .error .stateError, get_user_roles := fun _ => .ok ["admin"] }

/-- A command route registered for the exact command "start". -/
def sampleStartRoute : CommandRoute :=
  { callbackOk := true, states := [], roles := [], command := "start" }

/-- A message route matching "hi" whose callback raises. -/
def failingHiRoute : MessageRoute :=
  { callbackOk := false, states := [], roles := [], message := reStr "hi" }

/-- An id value held by no document of the sample states. -/
def sampleMissingId : Val := .int 2

/-- A second sample document with a different id. -/
def sampleDoc2 : Doc := [("_id", .int 2), ("Roles", .strlist ["user"])]

/-- A local storage state whose Users collection holds two documents. -/
def sampleLocal2 : LocalState :=
  fun c => if c = "Users" then .data [sampleDoc, sampleDoc2] else .missing

/-- The role catalog of the sample: the passwordless "user" role. -/
def sampleCatalog : List (String × String) := [("user", "")]

/-! ## Helper lemmas -/

theorem is_accessible_with_iff (r : Route) (state : String) (roles : List String) :
    r.is_accessible_with state roles = true ↔
      ((r.states = [] ∨ state ∈ r.states) ∧ (r.roles = [] ∨ ∃ ro ∈ r.roles, ro ∈ roles)) := by
  unfold Route.is_accessible_with
  rcases hs : r.states with _ | ⟨s0, srest⟩ <;> rcases hr : r.roles with _ | ⟨r0, rrest⟩ <;>
    simp [List.any_eq_true, List.elem_iff]

theorem mem_find_message_routes_iff (routes : List MessageRoute) (msg : List Char)
    (state : String) (roles : List String) (r : MessageRoute) :
    r ∈ Router.find_message_routes routes msg state roles ↔
      r ∈ routes ∧ r.message.rmatch msg = true ∧
        (r.states = [] ∨ state ∈ r.states) ∧
        (r.roles = [] ∨ ∃ ro ∈ r.roles, ro ∈ roles) := by
  unfold Router.find_message_routes
  rw [List.mem_filter, Bool.and_eq_true, is_accessible_with_iff]

theorem mem_find_command_routes_iff (routes : List CommandRoute) (command : String)
    (state : String) (roles : List String) (r : CommandRoute) :
    r ∈ Router.find_command_routes routes command state roles ↔
      r ∈ routes ∧ command = r.command ∧
        (r.states = [] ∨ state ∈ r.states) ∧
        (r.roles = [] ∨ ∃ ro ∈ r.roles, ro ∈ roles) := by
  unfold Router.find_command_routes
  rw [List.mem_filter, Bool.and_eq_true, is_accessible_with_iff]
  simp only [beq_iff_eq]

theorem invoke_loop_all_ok {α : Type} (ok : α → Bool) (l : List α)
    (h : ∀ x ∈ l, ok x = true) : Router.invoke_loop ok l = (l, false) := by
  induction l with
  | nil => rfl
  | cons a rest ih =>
      have ha : ok a = true := h a (List.mem_cons_self a rest)
      simp only [Router.invoke_loop, ha, if_true]
      rw [ih (fun x hx => h x (List.mem_cons_of_mem a hx))]

theorem invoke_loop_aborts {α : Type} (ok : α → Bool) (pre : List α) (bad : α) (post : List α)
    (hpre : ∀ x ∈ pre, ok x = true) (hbad : ok bad = false) :
    Router.invoke_loop ok (pre ++ bad :: post) = (pre ++ [bad], true) := by
  induction pre with
  | nil => simp [Router.invoke_loop, hbad]
  | cons a rest ih =>
      have ha : ok a = true := hpre a (List.mem_cons_self a rest)
      simp only [List.cons_append, Router.invoke_loop, ha, if_true, List.append_eq]
      rw [ih (fun x hx => hpre x (List.mem_cons_of_mem a hx))]

/-! ## C1 — dispatch matches trigger + state + roles -/

/-- C1 counterexample: the claimed unconditional iff fails at a concrete
event — `sampleHiRoute` is registered, its pattern full-matches the text
"hi", and both its allow-lists are empty, so the claim demands its callback
be invoked; yet the dispatched event invokes only the earlier matched
`failingHiRoute`, whose raising callback aborts the loop before
`sampleHiRoute` is reached. -/
theorem dispatch_invocation_counterexample :
    sampleHiRoute ∈ ([failingHiRoute, sampleHiRoute] : List MessageRoute) ∧
    sampleHiRoute.message.rmatch "hi".data = true ∧
    sampleHiRoute.states = [] ∧
    sampleHiRoute.roles = [] ∧
    Router.resolve_user sampleEnv 1 = .ok ("free", ["user"]) ∧
    Router.serve_message_route sampleEnv [failingHiRoute, sampleHiRoute] 1 "hi".data =
      .ok ([failingHiRoute], true) ∧
    sampleHiRoute ∉ [failingHiRoute] := by
  refine ⟨by simp, by decide, rfl, rfl, rfl, rfl, ?_⟩
  simp [sampleHiRoute, failingHiRoute]

/-- C1 amended: for every registered route and inbound event, the route's callback is
selected for invocation by the Router exactly when the payload matches the
trigger — full-string regex match for message routes, so pattern "hi|hello"
does not match "hi there" — and the state allow-list is empty or contains the
resolved state, and the role allow-list is empty or intersects the resolved
roles; with every callback returning normally, the invoked routes of a
dispatched message event are exactly those. -/
theorem dispatch_invokes_iff_trigger_and_access :
    (∀ (routes : List MessageRoute) (msg : List Char) (state : String) (roles : List String)
        (r : MessageRoute),
      r ∈ Router.find_message_routes routes msg state roles ↔
        r ∈ routes ∧ r.message.rmatch msg = true ∧
          (r.states = [] ∨ state ∈ r.states) ∧
          (r.roles = [] ∨ ∃ ro ∈ r.roles, ro ∈ roles)) ∧
    (∀ (routes : List CommandRoute) (command state : String) (roles : List String)
        (r : CommandRoute),
      r ∈ Router.find_command_routes routes command state roles ↔
        r ∈ routes ∧ command = r.command ∧
          (r.states = [] ∨ state ∈ r.states) ∧
          (r.roles = [] ∨ ∃ ro ∈ r.roles, ro ∈ roles)) ∧
    (∀ (env : RouterEnv) (routes : List MessageRoute) (uid : Int) (msg : List Char)
        (state : String) (roles : List String),
      Router.resolve_user env uid = .ok (state, roles) →
      (∀ r2 ∈ routes, r2.callbackOk = true) →
      Router.serve_message_route env routes uid msg =
        .ok (Router.find_message_routes routes msg state roles, false)) ∧
    (reStr "hi" + reStr "hello").rmatch "hi there".data = false := by
  refine ⟨mem_find_message_routes_iff, mem_find_command_routes_iff, ?_, by decide⟩
  intro env routes uid msg state roles hres hok
  unfold Router.serve_message_route
  rw [hres]
  show Except.ok (Router.invoke_loop (fun r => r.callbackOk)
        (Router.find_message_routes routes msg state roles)) =
      Except.ok (Router.find_message_routes routes msg state roles, false)
  rw [invoke_loop_all_ok _ _ (fun x hx =>
    hok x ((mem_find_message_routes_iff routes msg state roles x).mp hx).1)]

/-- Witness for C1 at a concrete route, event and environment. -/
theorem dispatch_invokes_iff_trigger_and_access_witness :
    sampleHiRoute ∈ Router.find_message_routes [sampleHiRoute] "hi".data "free" ["user"] ∧
    Router.serve_message_route sampleEnv [sampleHiRoute] 1 "hi".data =
      .ok (Router.find_message_routes [sampleHiRoute] "hi".data "free" ["user"], false) :=
  ⟨(dispatch_invokes_iff_trigger_and_access.1 [sampleHiRoute] "hi".data "free" ["user"]
      sampleHiRoute).mpr
    ⟨List.mem_singleton.mpr rfl, by decide, Or.inl rfl, Or.inl rfl⟩,
   dispatch_invokes_iff_trigger_and_access.2.2.1 sampleEnv [sampleHiRoute] 1 "hi".data
     "free" ["user"] rfl (by intro r2 h2; rw [List.mem_singleton.mp h2]; rfl)⟩

/-! ## C2 — get with a filter is superset match -/

/-- C2: for every collection, filter and stored document, `get` with the
filter returns the document exactly when every key of the filter is present
in the document with an equal value (sub-map match, not whole-document
equality), on the local backend and on the remote backend alike. -/
theorem get_data_superset_match (st : LocalState) (mst : MongoState) (coll : String)
    (docs : List Doc) (f d : Doc) (h : st coll = .data docs) :
    (submatch f d = true ↔ ∀ kv ∈ f, docFind d kv.1 = some kv.2) ∧
    ((LocalJSONStorage.get_data st coll [] f 0).isOk = true ∧
      (d ∈ (LocalJSONStorage.get_data st coll [] f 0).toOption.getD [] ↔
        d ∈ docs ∧ submatch f d = true)) ∧
    ((MongoDBStorage.get_data mst coll [] f 0).isOk = true ∧
      (d ∈ (MongoDBStorage.get_data mst coll [] f 0).toOption.getD [] ↔
        d ∈ mst coll ∧ submatch f d = true)) := by
  refine ⟨?_, ?_, ?_⟩
  · unfold submatch
    rw [List.all_eq_true]
    constructor
    · intro hall kv hkv
      exact beq_iff_eq.mp (hall kv hkv)
    · intro hall kv hkv
      exact beq_iff_eq.mpr (hall kv hkv)
  · by_cases hf : f.isEmpty
    · have hfe : f = [] := List.isEmpty_iff.mp hf
      subst hfe
      simp [LocalJSONStorage.get_data, h, DataFiltering.dict_list_slice, Except.isOk, Except.toBool,
        Except.toOption, submatch]
    · simp [LocalJSONStorage.get_data, h, hf, DataFiltering.dict_list_slice, Except.isOk, Except.toBool,
        Except.toOption, List.mem_filter]
  · simp [MongoDBStorage.get_data, DataFiltering.dict_list_slice, Except.isOk, Except.toBool,
      Except.toOption, List.mem_filter]

/-- Witness for C2 at a concrete state, filter and document. -/
theorem get_data_superset_match_witness :
    sampleDoc ∈ (LocalJSONStorage.get_data sampleLocal "Users" [] sampleFilter 0).toOption.getD []
      ∧ submatch sampleFilter sampleDoc = true :=
  ⟨((get_data_superset_match sampleLocal sampleMongo "Users" [sampleDoc] sampleFilter
      sampleDoc rfl).2.1.2).mpr ⟨List.mem_singleton.mpr rfl, by decide⟩,
   by decide⟩

/-! ## C3 — lookup failures fall back to the baseline identity -/

/-- C3: during dispatch of any inbound event, a state or role lookup failing
with a not-found error (`StateError` or `RoleError`) makes the Router
substitute the baseline state "free" and role list ["user"] and continue;
such a lookup failure never aborts dispatch. -/
theorem dispatch_lookup_fallback (env : RouterEnv) (uid : Int) :
    ((env.get_state uid = .error .stateError ∨ env.get_state uid = .error .roleError) →
      Router.resolve_user env uid = .ok ("free", ["user"])) ∧
    (∀ s, env.get_state uid = .ok s →
      (env.get_user_roles uid = .error .stateError ∨
        env.get_user_roles uid = .error .roleError) →
      Router.resolve_user env uid = .ok ("free", ["user"])) ∧
    Router.resolve_user env uid ≠ .error .stateError ∧
    Router.resolve_user env uid ≠ .error .roleError ∧
    (∀ (routes : List MessageRoute) (msg : List Char) (state : String) (roles : List String),
      Router.resolve_user env uid = .ok (state, roles) →
      Router.serve_message_route env routes uid msg =
        .ok (Router.invoke_loop (fun r => r.callbackOk)
              (Router.find_message_routes routes msg state roles))) := by
  refine ⟨?_, ?_, ?_, ?_, ?_⟩
  · intro h
    rcases h with h | h <;> unfold Router.resolve_user <;> rw [h]
  · intro s hs h
    unfold Router.resolve_user
    rw [hs]
    rcases h with h | h <;> rw [h]
  · unfold Router.resolve_user
    cases hs : env.get_state uid with
    | error e => cases e <;> simp
    | ok s =>
      cases hr : env.get_user_roles uid with
      | error e => cases e <;> simp
      | ok r => simp
  · unfold Router.resolve_user
    cases hs : env.get_state uid with
    | error e => cases e <;> simp
    | ok s =>
      cases hr : env.get_user_roles uid with
      | error e => cases e <;> simp
      | ok r => simp
  · intro routes msg state roles hres
    unfold Router.serve_message_route
    rw [hres]

/-- Witness for C3: a not-found state lookup yields the baseline identity and
dispatch proceeds to serve the event. -/
theorem dispatch_lookup_fallback_witness :
    Router.resolve_user missingUserEnv 7 = .ok ("free", ["user"]) ∧
    Router.serve_message_route missingUserEnv [sampleHiRoute] 7 "hi".data =
      .ok (Router.invoke_loop (fun r => r.callbackOk)
            (Router.find_message_routes [sampleHiRoute] "hi".data "free" ["user"])) :=
  ⟨(dispatch_lookup_fallback missingUserEnv 7).1 (Or.inl rfl),
   (dispatch_lookup_fallback missingUserEnv 7).2.2.2.2 [sampleHiRoute] "hi".data "free" ["user"]
     ((dispatch_lookup_fallback missingUserEnv 7).1 (Or.inl rfl))⟩

/-! ## C4 — command token parsing -/

/-- C4 counterexample: the source's `strip('/')` removes every leading and
trailing slash, so the token of "//start" is "start", not the "/start" that
stripping exactly one leading slash (the claim's reading) would leave. -/
theorem command_token_counterexample :
    Router.commandToken "//start".data = some "start" ∧
    Router.specCommandToken "//start".data = some "/start" ∧
    (some "start" : Option String) ≠ some "/start" :=
  ⟨by decide, by decide, by decide⟩

/-- C4 amended: the command token is the text up to the first whitespace
with every leading and trailing '/' stripped, and a command route triggers
only on exact string equality of this token with its registered command;
"/start now", "//start" and "/start/" all yield the token "start". -/
theorem command_token_strips_all_slashes :
    Router.commandToken "/start now".data = some "start" ∧
    Router.commandToken "//start".data = some "start" ∧
    Router.commandToken "/start/".data = some "start" ∧
    (∀ (env : RouterEnv) (routes : List CommandRoute) (uid : Int) (message : List Char)
        (token state : String) (roles : List String),
      Router.commandToken message = some token →
      Router.resolve_user env uid = .ok (state, roles) →
      Router.serve_command_route env routes uid message =
        .ok (Router.invoke_loop (fun r => r.callbackOk)
              (Router.find_command_routes routes token state roles))) ∧
    (∀ (routes : List CommandRoute) (token state : String) (roles : List String)
        (r : CommandRoute),
      r ∈ Router.find_command_routes routes token state roles → token = r.command) := by
  refine ⟨by decide, by decide, by decide, ?_, ?_⟩
  · intro env routes uid message token state roles htok hres
    unfold Router.serve_command_route
    rw [htok, hres]
  · intro routes token state roles r hr
    exact ((mem_find_command_routes_iff routes token state roles r).mp hr).2.1

/-- Witness for the amended C4: dispatching "//start" selects command routes
by the fully stripped token "start". -/
theorem command_token_strips_all_slashes_witness :
    Router.serve_command_route sampleEnv [sampleStartRoute] 1 "//start".data =
      .ok (Router.invoke_loop (fun r => r.callbackOk)
            (Router.find_command_routes [sampleStartRoute] "start" "free" ["user"])) :=
  command_token_strips_all_slashes.2.2.2.1 sampleEnv [sampleStartRoute] 1 "//start".data
    "start" "free" ["user"] (by decide) rfl

/-! ## C5 — callback invocation order and failure behaviour -/

/-- C5 counterexample: with two surviving routes, the first callback raising
stops the dispatch loop, so the second surviving route — although matched —
never has its callback invoked, contradicting the claimed independence of
invocations. -/
theorem callback_failure_counterexample :
    Router.serve_message_route sampleEnv [failingHiRoute, sampleHiRoute] 1 "hi".data =
      .ok ([failingHiRoute], true) ∧
    sampleHiRoute ∈
      Router.find_message_routes [failingHiRoute, sampleHiRoute] "hi".data "free" ["user"] ∧
    sampleHiRoute ∉ [failingHiRoute] := by
  refine ⟨rfl, ?_, ?_⟩
  · exact (mem_find_message_routes_iff _ _ _ _ _).mpr
      ⟨by simp, by decide, Or.inl rfl, Or.inl rfl⟩
  · simp [sampleHiRoute, failingHiRoute]

/-- C5 amended: surviving routes' callbacks run synchronously in registration
order; when every surviving callback returns normally all of them are
invoked, but a raising callback aborts the loop — the routes after it are
not invoked and the exception propagates out of the dispatch handler. -/
theorem callback_invocation_order :
    (∀ (env : RouterEnv) (routes : List MessageRoute) (uid : Int) (msg : List Char)
        (state : String) (roles : List String),
      Router.resolve_user env uid = .ok (state, roles) →
      (∀ r ∈ Router.find_message_routes routes msg state roles, r.callbackOk = true) →
      Router.serve_message_route env routes uid msg =
        .ok (Router.find_message_routes routes msg state roles, false)) ∧
    (∀ (env : RouterEnv) (routes : List MessageRoute) (uid : Int) (msg : List Char)
        (state : String) (roles : List String) (pre : List MessageRoute)
        (bad : MessageRoute) (post : List MessageRoute),
      Router.resolve_user env uid = .ok (state, roles) →
      Router.find_message_routes routes msg state roles = pre ++ bad :: post →
      (∀ r ∈ pre, r.callbackOk = true) →
      bad.callbackOk = false →
      Router.serve_message_route env routes uid msg = .ok (pre ++ [bad], true)) := by
  constructor
  · intro env routes uid msg state roles hres hok
    unfold Router.serve_message_route
    rw [hres]
    show Except.ok (Router.invoke_loop (fun r => r.callbackOk)
          (Router.find_message_routes routes msg state roles)) = _
    rw [invoke_loop_all_ok _ _ hok]
  · intro env routes uid msg state roles pre bad post hres hfound hpre hbad
    unfold Router.serve_message_route
    rw [hres]
    show Except.ok (Router.invoke_loop (fun r => r.callbackOk)
          (Router.find_message_routes routes msg state roles)) = _
    rw [hfound, invoke_loop_aborts _ _ _ _ hpre hbad]

/-- Witness for the amended C5: the first (failing) route is invoked, the
second matched route is cut off by the propagating exception. -/
theorem callback_invocation_order_witness :
    Router.serve_message_route sampleEnv [failingHiRoute, sampleHiRoute] 1 "hi".data =
      .ok ([] ++ [failingHiRoute], true) :=
  callback_invocation_order.2 sampleEnv [failingHiRoute, sampleHiRoute] 1 "hi".data
    "free" ["user"] [] failingHiRoute [sampleHiRoute] rfl rfl
    (by intro r hr; cases hr) rfl

/-! ## Storage helper lemmas -/

theorem get_data_plain (st : LocalState) (coll : String) (docs : List Doc)
    (h : st coll = .data docs) :
    LocalJSONStorage.get_data st coll [] [] 0 = .ok docs := by
  simp [LocalJSONStorage.get_data, h, DataFiltering.dict_list_slice]

theorem writeData_self (st : LocalState) (coll : String) (docs : List Doc)
    (h : st coll = .data docs) : writeData st coll docs = st := by
  funext c
  unfold writeData
  by_cases hc : c = coll
  · subst hc
    rw [if_pos rfl, h]
  · rw [if_neg hc]

theorem updateFirst_no_match (idc : String) (idv : Val) (patch : Doc) (data : List Doc)
    (h : ∀ d ∈ data, ¬docFind d idc = some idv) :
    LocalJSONStorage.updateFirst idc idv patch data = (data, false) := by
  induction data with
  | nil => rfl
  | cons a rest ih =>
      have ha : (docFind a idc == some idv) = false :=
        beq_eq_false_iff_ne.mpr (h a (List.mem_cons_self a rest))
      simp only [LocalJSONStorage.updateFirst, ha, Bool.false_eq_true, if_false]
      rw [ih (fun d hd => h d (List.mem_cons_of_mem a hd))]

theorem updateFirst_split (idc : String) (idv : Val) (patch : Doc)
    (pre : List Doc) (d : Doc) (post : List Doc)
    (hpre : ∀ x ∈ pre, ¬docFind x idc = some idv) (hd : docFind d idc = some idv) :
    LocalJSONStorage.updateFirst idc idv patch (pre ++ d :: post) =
      (pre ++ applyPatch d patch :: post, true) := by
  induction pre with
  | nil =>
      have : (docFind d idc == some idv) = true := beq_iff_eq.mpr hd
      simp only [List.nil_append, LocalJSONStorage.updateFirst, this, if_true]
  | cons a rest ih =>
      have ha : (docFind a idc == some idv) = false :=
        beq_eq_false_iff_ne.mpr (hpre a (List.mem_cons_self a rest))
      simp only [List.cons_append, LocalJSONStorage.updateFirst, ha, Bool.false_eq_true,
        if_false, List.append_eq]
      rw [ih (fun x hx => hpre x (List.mem_cons_of_mem a hx))]

theorem updateAll_eq (idc : String) (idv : Val) (patch : Doc) (data : List Doc) :
    LocalJSONStorage.updateAll idc idv patch data =
      (data.map (fun d => if docFind d idc == some idv then applyPatch d patch else d),
       (data.filter (fun d => docFind d idc == some idv)).length) := by
  induction data with
  | nil => rfl
  | cons a rest ih =>
      by_cases ha : (docFind a idc == some idv) = true
      · simp only [LocalJSONStorage.updateAll, ih, ha, if_true, List.map_cons,
          List.filter_cons, List.length_cons]
      · have ha2 : (docFind a idc == some idv) = false := by
          rwa [Bool.not_eq_true] at ha
        simp only [LocalJSONStorage.updateAll, ih, ha2, Bool.false_eq_true, if_false,
          List.map_cons, List.filter_cons, List.length_cons]

theorem removeFirst_no_match (f : Doc) (data : List Doc)
    (h : ∀ d ∈ data, submatch f d = false) :
    LocalJSONStorage.removeFirst f data = data := by
  induction data with
  | nil => rfl
  | cons a rest ih =>
      simp only [LocalJSONStorage.removeFirst, h a (List.mem_cons_self a rest),
        Bool.false_eq_true, if_false]
      rw [ih (fun d hd => h d (List.mem_cons_of_mem a hd))]

theorem removeFirst_split (f : Doc) (pre : List Doc) (d : Doc) (post : List Doc)
    (hpre : ∀ x ∈ pre, submatch f x = false) (hd : submatch f d = true) :
    LocalJSONStorage.removeFirst f (pre ++ d :: post) = pre ++ post := by
  induction pre with
  | nil => simp only [List.nil_append, LocalJSONStorage.removeFirst, hd, if_true]
  | cons a rest ih =>
      simp only [List.cons_append, LocalJSONStorage.removeFirst,
        hpre a (List.mem_cons_self a rest), Bool.false_eq_true, if_false, List.append_eq]
      rw [ih (fun x hx => hpre x (List.mem_cons_of_mem a hx))]

/-! ## C6 — upsert asymmetry between the backends -/

/-- C6: when no document carries the id value in the id column,
`update_one_doc` is asymmetric across backends: the local backend looks up,
finds nothing, and leaves the storage state entirely unchanged (no document
created, no file written), while the remote backend's native upsert appends
a freshly created document built from the id filter merged with the patch. -/
theorem update_one_upsert_asymmetry (st : LocalState) (mst : MongoState)
    (coll idc : String) (idv : Val) (patch : Doc) (docs : List Doc)
    (h : st coll = .data docs)
    (hnm : ∀ d ∈ docs, ¬docFind d idc = some idv)
    (hmnm : ∀ d ∈ mst coll, ¬docFind d idc = some idv) :
    LocalJSONStorage.update_one_doc st coll idc idv patch = .ok st ∧
    MongoDBStorage.update_one_doc mst coll idc idv patch coll =
      mst coll ++ [applyPatch [(idc, idv)] patch] := by
  constructor
  · unfold LocalJSONStorage.update_one_doc
    rw [get_data_plain st coll docs h]
    show Except.ok (if (LocalJSONStorage.updateFirst idc idv patch docs).2 then _ else st) = _
    rw [updateFirst_no_match idc idv patch docs hnm]
    simp
  · unfold MongoDBStorage.update_one_doc
    rw [updateFirst_no_match idc idv patch (mst coll) hmnm]
    simp

/-- Witness for C6: updating a nonexistent user leaves the local store
unchanged and makes the remote store grow by the upserted document. -/
theorem update_one_upsert_asymmetry_witness :
    LocalJSONStorage.update_one_doc sampleLocal "Users" "_id" sampleMissingId
        [("State", .str "busy")] = .ok sampleLocal ∧
    MongoDBStorage.update_one_doc sampleMongo "Users" "_id" sampleMissingId
        [("State", .str "busy")] "Users" =
      sampleMongo "Users" ++ [applyPatch [("_id", sampleMissingId)] [("State", .str "busy")]] :=
  update_one_upsert_asymmetry sampleLocal sampleMongo "Users" "_id" sampleMissingId
    [("State", .str "busy")] [sampleDoc] rfl (by decide) (by decide)

/-! ## C7 — updates only touch the listed keys -/

theorem docSet_find_ne (d : Doc) (k k2 : String) (v : Val) (hne : k ≠ k2) :
    docFind (docSet d k v) k2 = docFind d k2 := by
  induction d with
  | nil =>
      show docFind [(k, v)] k2 = docFind [] k2
      simp [docFind, hne]
  | cons a rest ih =>
      obtain ⟨a1, a2⟩ := a
      show docFind (if a1 = k then (a1, v) :: rest else (a1, a2) :: docSet rest k v) k2 =
        docFind ((a1, a2) :: rest) k2
      by_cases ha : a1 = k
      · rw [if_pos ha]
        show (if a1 = k2 then some v else docFind rest k2) =
          (if a1 = k2 then some a2 else docFind rest k2)
        have hne2 : a1 ≠ k2 := by rw [ha]; exact hne
        rw [if_neg hne2, if_neg hne2]
      · rw [if_neg ha]
        show (if a1 = k2 then some a2 else docFind (docSet rest k v) k2) =
          (if a1 = k2 then some a2 else docFind rest k2)
        rw [ih]

theorem applyPatch_find_not_key (patch : Doc) (k : String)
    (hk : ∀ kv ∈ patch, kv.1 ≠ k) :
    ∀ d, docFind (applyPatch d patch) k = docFind d k := by
  induction patch with
  | nil => intro d; rfl
  | cons kv rest ih =>
      intro d
      show docFind (applyPatch (docSet d kv.1 kv.2) rest) k = docFind d k
      rw [ih (fun kv2 h2 => hk kv2 (List.mem_cons_of_mem kv h2)) (docSet d kv.1 kv.2)]
      exact docSet_find_ne d kv.1 k kv.2 (hk kv (List.mem_cons_self kv rest))

theorem map_update_id (idc : String) (idv : Val) (patch : Doc) (docs : List Doc)
    (hall : ∀ d ∈ docs, (docFind d idc == some idv) = false) :
    docs.map (fun d => if docFind d idc == some idv then applyPatch d patch else d) = docs := by
  induction docs with
  | nil => rfl
  | cons a rest ih =>
      rw [List.map_cons, hall a (List.mem_cons_self a rest),
        ih (fun d hd => hall d (List.mem_cons_of_mem a hd))]
      simp

/-- C7: `update_one_doc` and `update_many_docs` overwrite only the keys
listed in the patch on the matched document(s): any key outside the patch
keeps its value, non-matched documents are untouched, the documents keep
their relative order, and other collections are untouched. -/
theorem update_patches_only_listed_keys (st : LocalState) (coll idc : String) (idv : Val)
    (patch : Doc) (docs : List Doc) (h : st coll = .data docs) :
    (∀ (d : Doc) (k : String), (∀ kv ∈ patch, kv.1 ≠ k) →
      docFind (applyPatch d patch) k = docFind d k) ∧
    LocalJSONStorage.update_many_docs st coll idc idv patch =
      .ok (writeData st coll (docs.map (fun d =>
        if docFind d idc == some idv then applyPatch d patch else d))) ∧
    (∀ pre d post, docs = pre ++ d :: post →
      (∀ x ∈ pre, ¬docFind x idc = some idv) → docFind d idc = some idv →
      LocalJSONStorage.update_one_doc st coll idc idv patch =
        .ok (writeData st coll (pre ++ applyPatch d patch :: post))) ∧
    (∀ c, c ≠ coll → ∀ docs2, writeData st coll docs2 c = st c) := by
  refine ⟨fun d k hk => applyPatch_find_not_key patch k hk d, ?_, ?_, ?_⟩
  · unfold LocalJSONStorage.update_many_docs
    rw [get_data_plain st coll docs h]
    show Except.ok (if (LocalJSONStorage.updateAll idc idv patch docs).2 ≠ 0 then
        writeData st coll (LocalJSONStorage.updateAll idc idv patch docs).1 else st) = _
    rw [updateAll_eq]
    by_cases hz : (docs.filter (fun d => docFind d idc == some idv)).length = 0
    · have hnil : docs.filter (fun d => docFind d idc == some idv) = [] :=
        List.length_eq_zero.mp hz
      have hall : ∀ d ∈ docs, (docFind d idc == some idv) = false := by
        intro d hd
        by_contra hcon
        have : d ∈ docs.filter (fun d => docFind d idc == some idv) :=
          List.mem_filter.mpr ⟨hd, by rwa [Bool.not_eq_false] at hcon⟩
        rw [hnil] at this
        cases this
      rw [map_update_id idc idv patch docs hall, writeData_self st coll docs h]
      simp [hz]
    · simp only [hz, ne_eq, not_false_iff, if_true]
  · intro pre d post hsplit hpre hd
    unfold LocalJSONStorage.update_one_doc
    rw [get_data_plain st coll docs h]
    show Except.ok (if (LocalJSONStorage.updateFirst idc idv patch docs).2 then
        writeData st coll (LocalJSONStorage.updateFirst idc idv patch docs).1 else st) = _
    rw [hsplit, updateFirst_split idc idv patch pre d post hpre hd]
    simp
  · intro c hc docs2
    unfold writeData
    rw [if_neg hc]

/-- Witness for C7 at a concrete two-document collection: only the first
document (the id match) is patched, the second stays as it is. -/
theorem update_patches_only_listed_keys_witness :
    LocalJSONStorage.update_many_docs sampleLocal2 "Users" "_id" (.int 1)
        [("State", .str "busy")] =
      .ok (writeData sampleLocal2 "Users" ([sampleDoc, sampleDoc2].map (fun d =>
        if docFind d "_id" == some (.int 1)
        then applyPatch d [("State", .str "busy")] else d))) ∧
    LocalJSONStorage.update_one_doc sampleLocal2 "Users" "_id" (.int 1)
        [("State", .str "busy")] =
      .ok (writeData sampleLocal2 "Users"
        ([] ++ applyPatch sampleDoc [("State", .str "busy")] :: [sampleDoc2])) :=
  ⟨(update_patches_only_listed_keys sampleLocal2 "Users" "_id" (.int 1)
      [("State", .str "busy")] [sampleDoc, sampleDoc2] rfl).2.1,
   (update_patches_only_listed_keys sampleLocal2 "Users" "_id" (.int 1)
      [("State", .str "busy")] [sampleDoc, sampleDoc2] rfl).2.2.1
     [] sampleDoc [sampleDoc2] rfl (by intro x hx; cases hx) (by decide)⟩

/-! ## C8 — removeOneByFilter removes the first superset match -/

/-- C8: `remove_one_doc_by_dict` removes exactly the first document in
insertion order that superset-matches the filter — the documents before and
after it keep their relative order — and is a no-op (the state is unchanged,
no error is raised) when no document matches. -/
theorem remove_one_first_match (st : LocalState) (coll : String) (f : Doc)
    (docs : List Doc) (h : st coll = .data docs) :
    ((∀ d ∈ docs, submatch f d = false) →
      LocalJSONStorage.remove_one_doc_by_dict st coll f = .ok st) ∧
    (∀ pre d post, docs = pre ++ d :: post →
      (∀ x ∈ pre, submatch f x = false) → submatch f d = true →
      LocalJSONStorage.remove_one_doc_by_dict st coll f =
        .ok (writeData st coll (pre ++ post))) := by
  constructor
  · intro hnone
    unfold LocalJSONStorage.remove_one_doc_by_dict
    rw [get_data_plain st coll docs h]
    show Except.ok (writeData st coll (LocalJSONStorage.removeFirst f docs)) = _
    rw [removeFirst_no_match f docs hnone, writeData_self st coll docs h]
  · intro pre d post hsplit hpre hd
    unfold LocalJSONStorage.remove_one_doc_by_dict
    rw [get_data_plain st coll docs h]
    show Except.ok (writeData st coll (LocalJSONStorage.removeFirst f docs)) = _
    rw [hsplit, removeFirst_split f pre d post hpre hd]

/-- Witness for C8: a non-matching filter leaves the two-document collection
untouched, and the filter matching the first document removes exactly it. -/
theorem remove_one_first_match_witness :
    LocalJSONStorage.remove_one_doc_by_dict sampleLocal2 "Users" [("_id", .int 5)] =
      .ok sampleLocal2 ∧
    LocalJSONStorage.remove_one_doc_by_dict sampleLocal2 "Users" [("_id", .int 1)] =
      .ok (writeData sampleLocal2 "Users" ([] ++ [sampleDoc2])) :=
  ⟨(remove_one_first_match sampleLocal2 "Users" [("_id", .int 5)]
      [sampleDoc, sampleDoc2] rfl).1 (by decide),
   (remove_one_first_match sampleLocal2 "Users" [("_id", .int 1)]
      [sampleDoc, sampleDoc2] rfl).2 [] sampleDoc [sampleDoc2] rfl
     (by intro x hx; cases hx) (by decide)⟩

/-! ## C9 — login_as on an already-held role -/

/-- C9: for a user already holding the role, `login_as` with the correct
password fails with `AlreadyLoggedError` and performs no storage write — the
returned storage state is exactly the state before the call, so the
persisted role list is unchanged. -/
theorem login_as_already_logged (cfg : RoleAuthCfg) (catalog : List (String × String))
    (st : LocalState) (role pw : String) (uid : Val) (rs : List String)
    (hrole : catalog.lookup role = some pw)
    (hroles : RoleAuth.get_user_roles cfg st uid = .ok (.strlist rs))
    (hmem : role ∈ rs) :
    RoleAuth.login_as cfg catalog st role uid pw = (.error .alreadyLoggedError, st) := by
  unfold RoleAuth.login_as
  rw [hrole]
  show (if pw ≠ pw then _ else _) = _
  rw [if_neg (fun hne => hne rfl)]
  rw [hroles]
  show (if role ∈ rs then ((Except.error .alreadyLoggedError : Except AuthErr Unit), st)
    else _) = _
  rw [if_pos hmem]

/-- Witness for C9: the sample user already holds "user", so logging in as
"user" with the correct (empty) password fails and leaves storage as it was. -/
theorem login_as_already_logged_witness :
    RoleAuth.login_as {} sampleCatalog sampleLocal "user" (.int 1) "" =
      (.error .alreadyLoggedError, sampleLocal) :=
  login_as_already_logged {} sampleCatalog sampleLocal "user" "" (.int 1) ["user"]
    rfl rfl (by decide)

/-! ## C10 — inserts swallow a failed collection read -/

/-- C10: on the local backend, inserting into a collection whose backing
file is missing or undecodable does not raise — the failed read is
swallowed, the collection is treated as empty and a fresh file holding only
the newly inserted document(s) is written — although `get_data` on the same
collection raises `StorageException`. -/
theorem insert_swallows_read_failure (st : LocalState) (coll : String) (doc : Doc)
    (docs : List Doc) (h : st coll = .missing ∨ st coll = .corrupt) :
    LocalJSONStorage.insert_one_doc st coll doc coll = .data [doc] ∧
    LocalJSONStorage.insert_many_docs st coll docs coll = .data docs ∧
    LocalJSONStorage.get_data st coll [] [] 0 =
      .error (.failed "Failed to get data from storage") := by
  have hget : LocalJSONStorage.get_data st coll [] [] 0 =
      .error (.failed "Failed to get data from storage") := by
    rcases h with h | h <;> simp [LocalJSONStorage.get_data, h]
  refine ⟨?_, ?_, hget⟩
  · unfold LocalJSONStorage.insert_one_doc
    rw [hget]
    show writeData st coll ([] ++ [doc]) coll = .data [doc]
    simp [writeData]
  · unfold LocalJSONStorage.insert_many_docs
    rw [hget]
    show writeData st coll ([] ++ docs) coll = .data docs
    simp [writeData]

/-- Witness for C10 at the missing "Logs" collection of the sample state. -/
theorem insert_swallows_read_failure_witness :
    LocalJSONStorage.insert_one_doc sampleLocal "Logs" sampleDoc "Logs" =
      .data [sampleDoc] ∧
    LocalJSONStorage.insert_many_docs sampleLocal "Logs" [sampleDoc, sampleDoc2] "Logs" =
      .data [sampleDoc, sampleDoc2] ∧
    LocalJSONStorage.get_data sampleLocal "Logs" [] [] 0 =
      .error (.failed "Failed to get data from storage") :=
  insert_swallows_read_failure sampleLocal "Logs" sampleDoc [sampleDoc, sampleDoc2]
    (Or.inl rfl)
